import Mathlib

/-!
Shallow embedding of the `pyavatar` library (`src/pyavatar/__init__.py`).

The PIL raster library is out of scope per the spec: the canvas is modelled
as a record of everything the code hands to PIL (mode, dimensions, background
color, font, text, draw position), text measurement (`draw.textsize`,
`font.getoffset`) is a `Metrics` parameter, and image encoding
(`img.save(..., format=...)`) is an `Encoder` parameter.  The filesystem is
explicit state (`Fs`).  Python exceptions are modelled with `Except` /
explicit error results; machine floats appear only in `int(0.6 * size)`,
which on the validated range `[50, 650]` computes exactly the truncation of
the rational `3 * size / 5` (the double nearest to `0.6` is below `0.6` by
about `2.2e-17`, so `0.6f * size` rounds to the double nearest `3*size/5`,
whose truncation agrees with the exact one on this range).
-/

deriving instance DecidableEq for Except

/-- Python exception values raised by the code paths modelled here.
`TypeError`, `IndexError` and `FileNotFoundError` are Python builtins and are
not part of the `PyAvatarError` hierarchy. -/
inductive PyErr where
  | typeError (message : String)
  | renderingSizeError (value : Int) (message : String)
  | fontpathError (value : String)
  | fontExtensionNotSupportedError (value : String) (info : String)
  | avatarExtensionNotSupportedError (value : String) (info : String)
  | indexError
  | fileNotFoundError
deriving DecidableEq

/-- Whether an exception belongs to the code's `PyAvatarError` hierarchy
(the four typed avatar errors); builtins do not. -/
def PyErr.isPyAvatarError : PyErr → Bool
  | .renderingSizeError _ _ => true
  | .fontpathError _ => true
  | .fontExtensionNotSupportedError _ _ => true
  | .avatarExtensionNotSupportedError _ _ => true
  | _ => false

/-- A background color: either a hex string or an RGB triple
(`Union[str, Tuple[int, int, int]]` in the code). -/
inductive Color where
  | hex (s : String)
  | rgb (r g b : Nat)
deriving DecidableEq

/-- Python truthiness of a color value: an empty string is falsy, any other
string and any 3-tuple is truthy.  Used by `color or self._random_color()`. -/
def Color.pyTruthy : Color → Bool
  | .hex s => !s.isEmpty
  | .rgb _ _ _ => true

/-- The `color or self._random_color()` idiom: the random color is used when
the argument is `None` or falsy. -/
def resolveColor (c : Option Color) (rand : Color) : Color :=
  match c with
  | none => rand
  | some c => if c.pyTruthy then c else rand

/-- The three `random.randint(0, 255)` draws of `PyAvatar._random_color`,
supplied as an explicit triple. -/
def randomColor (rand : Nat × Nat × Nat) : Color :=
  Color.rgb rand.1 rand.2.1 rand.2.2

namespace ValidImgFormats

/-- Values of the `ValidImgFormats` enum, in declaration order. -/
def list : List String := ["png", "jpeg", "ico"]

/-- The `csv` classproperty: comma separated values. -/
def csv : String := String.intercalate ", " list

end ValidImgFormats

namespace ValidFontFormats

/-- Values of the `ValidFontFormats` enum. -/
def list : List String := [".ttf", ".otf"]

/-- The `csv` classproperty. -/
def csv : String := String.intercalate ", " list

end ValidFontFormats

namespace ValidPixelRange

/-- `ValidPixelRange.MIN.value`. -/
def MIN : Int := 50

/-- `ValidPixelRange.MAX.value`. -/
def MAX : Int := 650

/-- The `list` classproperty: `[MIN, MAX]`. -/
def list : List Int := [MIN, MAX]

end ValidPixelRange

/-- Python `str.lower`, restricted to the ASCII range used by the library. -/
def pyLower (s : String) : String := String.mk (s.data.map Char.toLower)

/-- Python `str.endswith`, via reversed character lists. -/
def endsWithSuffix (s suffix : String) : Bool :=
  List.isPrefixOf suffix.data.reverse s.data.reverse

/-- Python `str.split(sep)` for a single-character separator (`"".split(sep)`
is `[""]`, like in Python). -/
def splitOnChar (sep : Char) : List Char → List (List Char)
  | [] => [[]]
  | c :: cs =>
    match splitOnChar sep cs with
    | [] => [[]]
    | g :: gs => if c = sep then [] :: g :: gs else (c :: g) :: gs

/-- The filesystem: existing directories and written files (path, bytes). -/
structure Fs where
  dirs : List String
  files : List (String × List Nat)
deriving DecidableEq

/-- Python `os.path.exists` on this model (`os.path.exists("")` is `False`). -/
def osPathExists (fs : Fs) (p : String) : Bool :=
  (p != "") && (fs.dirs.contains p || (fs.files.map Prod.fst).contains p)

/-- Python `os.makedirs`: raises `FileNotFoundError` on the empty path,
otherwise records the directory path (intermediate components are not
tracked individually). -/
def osMakedirs (p : String) (fs : Fs) : Option PyErr × Fs :=
  if p = "" then (some PyErr.fileNotFoundError, fs)
  else (none, { fs with dirs := p :: fs.dirs })

/-- Characters of the last path component (Python `os.path.basename`-style
final component, for POSIX paths). -/
def basenameChars (p : String) : List Char :=
  (splitOnChar '/' p.data).getLastD []

/-- Python `os.path.basename` as a string. -/
def basename (p : String) : String := String.mk (basenameChars p)

/-- Python `os.path.dirname` for POSIX paths: everything before the last
slash, with trailing slashes stripped unless the head is all slashes. -/
def dirname (p : String) : String :=
  let head := p.data.reverse.dropWhile (fun c => c ≠ '/')
  if head.all (fun c => c = '/') then String.mk head.reverse
  else String.mk ((head.dropWhile (fun c => c = '/')).reverse)

/-- The extension part of Python `os.path.splitext` for POSIX paths: the
suffix from the last dot of the final component, empty when the final
component has no dot or only leading dots. -/
def splitextExt (p : List Char) : List Char :=
  let base := (splitOnChar '/' p).getLastD []
  let parts := splitOnChar '.' base
  if parts.length ≤ 1 then []
  else if parts.dropLast.all (fun g => g.isEmpty) then []
  else '.' :: parts.getLastD []

/-- Python list indexing: `IndexError` when out of range. -/
def pyIndexList {α : Type} (l : List α) (i : Nat) : Except PyErr α :=
  if h : i < l.length then .ok l[i] else .error PyErr.indexError

/-- Text measurement callbacks of the raster library
(`draw.textsize(text, font)` and `font.getoffset(text)`), abstracted over
the text, the font path and the font pixel size. -/
structure Metrics where
  textsize : String → String → Int → Int × Int
  getoffset : String → String → Int → Int × Int

/-- The canvas: everything `PyAvatar.__generate` hands to the raster
library.  `textPosition` is the possibly fractional draw position. -/
structure PILImage where
  mode : String
  width : Int
  height : Int
  color : Color
  fontpath : String
  fontsize : Int
  text : String
  textPosition : ℚ × ℚ
deriving DecidableEq

/-- An image encoder (`img.save(stream, format=...)`): bytes of the canvas
encoded in a given format. -/
def Encoder : Type := PILImage → String → List Nat

/-- The font pixel size `int(0.6 * self.size)`: exact on the validated
range (see the file comment), truncation toward zero of `3 * size / 5`. -/
def fontPixelSize (size : Int) : Int := (3 * size).tdiv 5

/-- `PyAvatar.__generate`: allocate the square canvas, load the font at
`int(0.6 * size)`, measure the text, compute the centered position, draw. -/
def generate (m : Metrics) (text : String) (size : Int) (fontpath : String)
    (color : Color) : PILImage :=
  let fontsize := fontPixelSize size
  let wh := m.textsize text fontpath fontsize
  let off := m.getoffset text fontpath fontsize
  { mode := "RGB"
    width := size
    height := size
    color := color
    fontpath := fontpath
    fontsize := fontsize
    text := text
    textPosition :=
      ((size : ℚ) / 2 - ((wh.1 : ℚ) + (off.1 : ℚ)) / 2,
       (size : ℚ) / 2 - ((wh.2 : ℚ) + (off.2 : ℚ)) / 2) }

/-- The avatar entity: validated fields plus the cached canvas. -/
structure PyAvatar where
  text : String
  size : Int
  fontpath : String
  color : Color
  img : PILImage
deriving DecidableEq

/-- The `text` property setter: Python `t[0].upper()`; `IndexError` on the
empty string (the type check is carried by the Lean type). -/
def setText (t : String) : Except PyErr String :=
  match t.data with
  | [] => .error PyErr.indexError
  | c :: _ => .ok (String.mk [c.toUpper])

/-- The `size` property setter: `RenderingSizeError` outside
`[ValidPixelRange.MIN, ValidPixelRange.MAX]`, carrying the offending value
and the message built from `ValidPixelRange.list`. -/
def setSize (s : Int) : Except PyErr Int :=
  if s < ValidPixelRange.MIN ∨ s > ValidPixelRange.MAX then
    .error (PyErr.renderingSizeError s
      ("Rendering size must in range " ++ toString ValidPixelRange.list))
  else .ok s

/-- The `fontpath` property setter: the path must exist and its lowercased
form must end in `.ttf` or `.otf`. -/
def setFontpath (fs : Fs) (t : String) : Except PyErr String :=
  if osPathExists fs t = false then .error (PyErr.fontpathError t)
  else if (endsWithSuffix (pyLower t) ".ttf"
      || endsWithSuffix (pyLower t) ".otf") = false then
    .error (PyErr.fontExtensionNotSupportedError (basename t)
      ("Supported formats: " ++ ValidFontFormats.csv))
  else .ok t

/-- `PyAvatar.__init__`: assign `text`, `size`, `fontpath` through their
validating setters in order, resolve the color, render the canvas. -/
def mkPyAvatar (m : Metrics) (fs : Fs) (rand : Nat × Nat × Nat)
    (text : String) (size : Int) (fontpath : String) (color : Option Color) :
    Except PyErr PyAvatar :=
  match setText text with
  | .error e => .error e
  | .ok t =>
    match setSize size with
    | .error e => .error e
    | .ok s =>
      match setFontpath fs fontpath with
      | .error e => .error e
      | .ok fp =>
        let c := resolveColor color (randomColor rand)
        .ok { text := t, size := s, fontpath := fp, color := c,
              img := generate m t s fp c }

/-- `PyAvatar.change_color`: re-assign `color` (random when omitted or
falsy) and regenerate the canvas; nothing else. -/
def change_color (m : Metrics) (rand : Nat × Nat × Nat) (a : PyAvatar)
    (color : Option Color) : PyAvatar :=
  let c := resolveColor color (randomColor rand)
  { a with color := c, img := generate m a.text a.size a.fontpath c }

/-- The expression `os.path.splitext(filepath)[1].split(".")[1]` of
`PyAvatar.save`: `IndexError` when the split yields fewer than two parts. -/
def extensionOf (p : String) : Except PyErr String :=
  match pyIndexList (splitOnChar '.' (splitextExt p.data)) 1 with
  | .error e => .error e
  | .ok cs => .ok (String.mk cs)

/-- `PyAvatar.save`: extract the extension (exact, not lowercased), validate
it against `ValidImgFormats.list`, create the missing parent directory, and
write the encoded canvas at the exact path.  The pair carries the raised
exception (if any) together with the filesystem at the point of raise. -/
def save (enc : Encoder) (a : PyAvatar) (filepath : String) (fs : Fs) :
    Option PyErr × Fs :=
  match extensionOf filepath with
  | .error e => (some e, fs)
  | .ok extension =>
    if ValidImgFormats.list.contains extension then
      let directory := dirname filepath
      match (if osPathExists fs directory then (none, fs)
             else osMakedirs directory fs) with
      | (some e, fs1) => (some e, fs1)
      | (none, fs1) =>
        (none, { fs1 with files := (filepath, enc a.img extension) :: fs1.files })
    else
      (some (PyErr.avatarExtensionNotSupportedError (basename filepath)
        ("Supported formats: " ++ ValidImgFormats.csv)), fs)

/-- `PyAvatar.stream`: validate the lowercased format name, then return the
canvas encoded in the requested format. -/
def stream (enc : Encoder) (a : PyAvatar) (filetype : String) :
    Except PyErr (List Nat) :=
  if ValidImgFormats.list.contains (pyLower filetype) then
    .ok (enc a.img filetype)
  else
    .error (PyErr.avatarExtensionNotSupportedError filetype
      ("Supported formats: " ++ ValidImgFormats.csv))

/-- The base64 alphabet used by Python `base64.b64encode`. -/
def b64Alphabet : List Char :=
  "ABCDEFGHIJKLMNOPQRSTUVWXYZabcdefghijklmnopqrstuvwxyz0123456789+/".data

/-- Character for a 6-bit value. -/
def b64Char (n : Nat) : Char := b64Alphabet.getD n 'A'

/-- Index of a base64 character in the alphabet. -/
def b64Index (c : Char) : Option Nat := b64Alphabet.findIdx? (fun d => d = c)

/-- Python `base64.b64encode` over byte lists (with `=` padding). -/
def encB64 : List Nat → List Char
  | [] => []
  | [b1] => [b64Char (b1 / 4), b64Char (b1 % 4 * 16), '=', '=']
  | [b1, b2] =>
    [b64Char (b1 / 4), b64Char (b1 % 4 * 16 + b2 / 16), b64Char (b2 % 16 * 4), '=']
  | b1 :: b2 :: b3 :: rest =>
    b64Char (b1 / 4) :: b64Char (b1 % 4 * 16 + b2 / 16) ::
      b64Char (b2 % 16 * 4 + b3 / 64) :: b64Char (b3 % 64) :: encB64 rest

/-- Standard base64 decoding over character lists, inverse of `encB64`. -/
def decB64 : List Char → Option (List Nat)
  | [] => some []
  | c1 :: c2 :: c3 :: c4 :: rest =>
    match b64Index c1, b64Index c2 with
    | some d1, some d2 =>
      if c3 = '=' then
        if c4 = '=' ∧ rest = [] then some [d1 * 4 + d2 / 16] else none
      else
        match b64Index c3 with
        | some d3 =>
          if c4 = '=' then
            if rest = [] then some [d1 * 4 + d2 / 16, d2 % 16 * 16 + d3 / 4]
            else none
          else
            match b64Index c4, decB64 rest with
            | some d4, some tail =>
              some ((d1 * 4 + d2 / 16) :: (d2 % 16 * 16 + d3 / 4) ::
                (d3 % 4 * 64 + d4) :: tail)
            | _, _ => none
        | none => none
    | _, _ => none
  | _ => none

/-- `PyAvatar.base64_image`: base64-encode `stream(filetype)` and wrap it in
the data-URI prefix built from the format name as passed. -/
def base64_image (enc : Encoder) (a : PyAvatar) (filetype : String) :
    Except PyErr String :=
  match stream enc a filetype with
  | .error e => .error e
  | .ok bytes =>
    .ok ("data:image/" ++ filetype ++ ";base64," ++ String.mk (encB64 bytes))

/-- The PNG signature bytes quoted in the class docstring
(`b'\x89PNG\r\n\x1a\n'`). -/
def pngMagic : List Nat := [137, 80, 78, 71, 13, 10, 26, 10]

/-- Whether `needle` occurs as a contiguous run inside `hay`. -/
def containsSubChars (hay needle : List Char) : Bool :=
  match hay with
  | [] => needle.isEmpty
  | _ :: t => List.isPrefixOf needle hay || containsSubChars t needle

/-- String form of `containsSubChars`. -/
def strContainsSub (hay needle : String) : Bool :=
  containsSubChars hay.data needle.data

/-- Modelled from the spec: the claim's font scaling `round(k * size)` with
`k = 0.6`, i.e. rounding rather than the code's truncation. -/
def specRoundFontSize (size : Int) : Int := round ((3 * (size : ℚ)) / 5)

theorem b64Index_b64Char : ∀ n < 64, b64Index (b64Char n) = some n := by decide

theorem b64Char_ne_pad : ∀ n < 64, b64Char n ≠ '=' := by decide

theorem decB64_encB64_one (b1 : Nat) (hb1 : b1 < 256) :
    decB64 (encB64 [b1]) = some [b1] := by
  have e1 := b64Index_b64Char (b1 / 4) (by omega)
  have e2 := b64Index_b64Char (b1 % 4 * 16) (by omega)
  simp [encB64, decB64, e1, e2]
  omega

theorem decB64_encB64_two (b1 b2 : Nat) (hb1 : b1 < 256) (hb2 : b2 < 256) :
    decB64 (encB64 [b1, b2]) = some [b1, b2] := by
  have e1 := b64Index_b64Char (b1 / 4) (by omega)
  have e2 := b64Index_b64Char (b1 % 4 * 16 + b2 / 16) (by omega)
  have e3 := b64Index_b64Char (b2 % 16 * 4) (by omega)
  have n3 := b64Char_ne_pad (b2 % 16 * 4) (by omega)
  simp [encB64, decB64, e1, e2, e3, n3]
  constructor <;> omega

theorem decB64_encB64 :
    ∀ (bs : List Nat), (∀ b ∈ bs, b < 256) → decB64 (encB64 bs) = some bs
  | [], _ => rfl
  | [b1], h => decB64_encB64_one b1 (h b1 (by simp))
  | [b1, b2], h => decB64_encB64_two b1 b2 (h b1 (by simp)) (h b2 (by simp))
  | b1 :: b2 :: b3 :: rest, h => by
    have hb1 : b1 < 256 := h b1 (by simp)
    have hb2 : b2 < 256 := h b2 (by simp)
    have hb3 : b3 < 256 := h b3 (by simp)
    have e1 := b64Index_b64Char (b1 / 4) (by omega)
    have e2 := b64Index_b64Char (b1 % 4 * 16 + b2 / 16) (by omega)
    have e3 := b64Index_b64Char (b2 % 16 * 4 + b3 / 64) (by omega)
    have e4 := b64Index_b64Char (b3 % 64) (by omega)
    have n3 := b64Char_ne_pad (b2 % 16 * 4 + b3 / 64) (by omega)
    have n4 := b64Char_ne_pad (b3 % 64) (by omega)
    have ih := decB64_encB64 rest (fun b hb => h b (by simp [hb]))
    match rest with
    | [] =>
      simp [encB64, decB64, e1, e2, e3, e4, n3, n4]
      refine ⟨by omega, by omega, by omega⟩
    | r :: rs =>
      simp [encB64, decB64, e1, e2, e3, e4, n3, n4, ih]
      refine ⟨by omega, by omega, by omega⟩

theorem splitOnChar_eq_single {sep : Char} :
    ∀ {l : List Char}, sep ∉ l → splitOnChar sep l = [l]
  | [], _ => rfl
  | c :: cs, h => by
    have hc : c ≠ sep := fun hcs => h (hcs ▸ List.mem_cons_self c cs)
    have ih := splitOnChar_eq_single (l := cs) (fun hm => h (List.mem_cons_of_mem c hm))
    simp [splitOnChar, ih, hc]

/-- A constant text-measurement instance used in closed instantiations. -/
def metricsC : Metrics := ⟨fun _ _ _ => (10, 20), fun _ _ _ => (1, 2)⟩

/-- A filesystem fixture with the bundled font present and `/tmp` existing. -/
def fsC : Fs := { dirs := ["/tmp"], files := [("font/Lora.ttf", [])] }

/-- A constant encoder fixture that always emits the PNG signature bytes. -/
def encC : Encoder := fun _ _ => pngMagic

/-- A concrete avatar fixture used in closed instantiations. -/
def avatarC : PyAvatar :=
  { text := "S", size := 120, fontpath := "font/Lora.ttf",
    color := Color.rgb 0 0 0,
    img := generate metricsC "S" 120 "font/Lora.ttf" (Color.rgb 0 0 0) }

/-- Claim C9: constructing with the empty string (which passes the string
type check) raises the builtin `IndexError` from `text[0]` before any other
validation, and that error is not a typed `PyAvatarError`. -/
theorem construction_empty_text_index_error (m : Metrics) (fs : Fs)
    (rand : Nat × Nat × Nat) (sz : Int) (fp : String) (c : Option Color) :
    mkPyAvatar m fs rand "" sz fp c = .error PyErr.indexError ∧
    PyErr.indexError.isPyAvatarError = false := ⟨rfl, rfl⟩

/-- Claim C8: `change_color` changes only the `color` field and the cached
canvas; `text`, `size` and `fontpath` are untouched, and the new canvas is
the render of the unchanged fields with the new color. -/
theorem change_color_frame (m : Metrics) (rand : Nat × Nat × Nat)
    (a : PyAvatar) (c : Option Color) :
    (change_color m rand a c).text = a.text ∧
    (change_color m rand a c).size = a.size ∧
    (change_color m rand a c).fontpath = a.fontpath ∧
    (change_color m rand a c).color = resolveColor c (randomColor rand) ∧
    (change_color m rand a c).img =
      generate m a.text a.size a.fontpath (resolveColor c (randomColor rand)) :=
  ⟨rfl, rfl, rfl, rfl, rfl⟩

/-- Claim C2 (code evidence): the code's text setter uppercases the first
character unconditionally — `PyAvatar("smallwat3r").text == "S"` — and the
constructor has no `capitalize` parameter, so the claimed
`capitalize=False` behavior does not exist in the code. -/
theorem text_always_uppercased :
    Except.map PyAvatar.text
      (mkPyAvatar metricsC fsC (1, 2, 3) "smallwat3r" 120 "font/Lora.ttf" none) =
      .ok "S" ∧
    setText "smallwat3r" = .ok "S" := by
  constructor <;> decide

/-- Claim C7 counterexample: at size 51 the code loads the font at
`int(0.6 * 51) = 30`, while the claimed `round(0.6 * 51)` is 31. -/
theorem font_scaling_counterexample :
    (generate metricsC "S" 51 "font/Lora.ttf" (Color.rgb 0 0 0)).fontsize = 30 ∧
    specRoundFontSize 51 = 31 ∧ (30 : Int) ≠ 31 := by
  refine ⟨by decide, ?_, by decide⟩
  unfold specRoundFontSize
  rw [round_eq]
  rw [show (3 * ((51 : Int) : ℚ)) / 5 + 1/2 = ((311 : ℤ) : ℚ) / ((10 : ℕ) : ℚ) by
    norm_num]
  rw [Rat.floor_intCast_div_natCast]
  decide

/-- Claim C7 as amended: on the validated range the render algorithm loads
the font at `font_reference` scaled to `int(0.6 * size)` — the floor
(truncation) of `0.6 * size`, not its rounding. -/
theorem font_scaling (m : Metrics) (t fp : String) (c : Color) (sz : Int)
    (h1 : ValidPixelRange.MIN ≤ sz) (h2 : sz ≤ ValidPixelRange.MAX) :
    (generate m t sz fp c).fontsize = ⌊(3 * (sz : ℚ)) / 5⌋ ∧
    (generate m t sz fp c).fontpath = fp := by
  have h1' : (50 : Int) ≤ sz := h1
  have h2' : sz ≤ (650 : Int) := h2
  constructor
  · show fontPixelSize sz = _
    unfold fontPixelSize
    rw [Int.tdiv_eq_ediv (by omega) (by omega)]
    rw [show (3 * (sz : ℚ)) / 5 = ((3 * sz : ℤ) : ℚ) / ((5 : ℕ) : ℚ) by push_cast; ring]
    rw [Rat.floor_intCast_div_natCast]
    norm_num
  · rfl

/-- Witness for the amended claim C7 at size 51. -/
theorem font_scaling_witness :
    (ValidPixelRange.MIN ≤ (51 : Int) ∧ (51 : Int) ≤ ValidPixelRange.MAX) ∧
    ((generate metricsC "S" 51 "font/Lora.ttf" (Color.rgb 0 0 0)).fontsize =
        ⌊(3 * ((51 : Int) : ℚ)) / 5⌋ ∧
      (generate metricsC "S" 51 "font/Lora.ttf" (Color.rgb 0 0 0)).fontpath =
        "font/Lora.ttf") :=
  ⟨⟨by decide, by decide⟩,
    font_scaling metricsC "S" "font/Lora.ttf" (Color.rgb 0 0 0) 51
      (by decide) (by decide)⟩

/-- Claim C1: with valid text and fontpath, construction raises
`RenderingSizeError` iff `size < MIN (50)` or `size > MAX (650)`; the
boundary values succeed with `avatar.size == size`; the error carries the
offending value and its message reports both configured bounds. -/
theorem construction_size_validation (m : Metrics) (fs : Fs)
    (rand : Nat × Nat × Nat) (t fp : String) (c : Option Color) (sz : Int)
    (ht : t ≠ "") (hfp : setFontpath fs fp = .ok fp) :
    ((∃ msg, mkPyAvatar m fs rand t sz fp c =
        .error (PyErr.renderingSizeError sz msg)) ↔
      (sz < ValidPixelRange.MIN ∨ sz > ValidPixelRange.MAX)) ∧
    ((sz = 50 ∨ sz = 650) →
      ∃ a, mkPyAvatar m fs rand t sz fp c = .ok a ∧ a.size = sz) ∧
    ((sz < ValidPixelRange.MIN ∨ sz > ValidPixelRange.MAX) →
      mkPyAvatar m fs rand t sz fp c =
        .error (PyErr.renderingSizeError sz
          ("Rendering size must in range " ++ toString ValidPixelRange.list)) ∧
      strContainsSub
        ("Rendering size must in range " ++ toString ValidPixelRange.list)
        (toString ValidPixelRange.MIN) = true ∧
      strContainsSub
        ("Rendering size must in range " ++ toString ValidPixelRange.list)
        (toString ValidPixelRange.MAX) = true) := by
  have hd : t.data ≠ [] := fun hnil => ht (String.ext (by rw [hnil]))
  obtain ⟨c0, cs, hdata⟩ : ∃ c0 cs, t.data = c0 :: cs := by
    cases hdt : t.data with
    | nil => exact absurd hdt hd
    | cons a l => exact ⟨a, l, rfl⟩
  have hMIN : ValidPixelRange.MIN = (50 : Int) := rfl
  have hMAX : ValidPixelRange.MAX = (650 : Int) := rfl
  by_cases hbad : sz < ValidPixelRange.MIN ∨ sz > ValidPixelRange.MAX
  · have hmk : mkPyAvatar m fs rand t sz fp c =
        .error (PyErr.renderingSizeError sz
          ("Rendering size must in range " ++ toString ValidPixelRange.list)) := by
      unfold mkPyAvatar setText setSize
      simp only [hdata]
      rw [if_pos hbad]
    refine ⟨⟨fun _ => hbad, fun _ => ⟨_, hmk⟩⟩, ?_, fun _ => ⟨hmk, by decide, by decide⟩⟩
    intro hb
    exfalso
    rw [hMIN, hMAX] at hbad
    rcases hb with rfl | rfl <;> omega
  · have hmk : mkPyAvatar m fs rand t sz fp c =
        .ok { text := String.mk [c0.toUpper], size := sz, fontpath := fp,
              color := resolveColor c (randomColor rand),
              img := generate m (String.mk [c0.toUpper]) sz fp
                (resolveColor c (randomColor rand)) } := by
      unfold mkPyAvatar setText setSize
      simp only [hdata]
      rw [if_neg hbad, hfp]
    refine ⟨⟨fun hex => ?_, fun hb => absurd hb hbad⟩,
      fun _ => ⟨_, hmk, rfl⟩, fun hb => absurd hb hbad⟩
    obtain ⟨msg, hmsg⟩ := hex
    rw [hmk] at hmsg
    exact absurd hmsg (by simp)

/-- Witness for claim C1 at size 651. -/
theorem construction_size_validation_witness :
    mkPyAvatar metricsC fsC (1, 2, 3) "smallwat3r" 651 "font/Lora.ttf" none =
      .error (PyErr.renderingSizeError 651
        ("Rendering size must in range " ++ toString ValidPixelRange.list)) ∧
    strContainsSub
      ("Rendering size must in range " ++ toString ValidPixelRange.list)
      (toString ValidPixelRange.MIN) = true ∧
    strContainsSub
      ("Rendering size must in range " ++ toString ValidPixelRange.list)
      (toString ValidPixelRange.MAX) = true :=
  (construction_size_validation metricsC fsC (1, 2, 3) "smallwat3r"
      "font/Lora.ttf" none 651 (by decide) (by decide)).2.2 (by decide)

/-- Claim C6: an explicitly supplied (truthy) color is stored verbatim by
the constructor and by `change_color`, never replaced by a random one. -/
theorem explicit_color_stored (m : Metrics) (fs : Fs) (rand : Nat × Nat × Nat)
    (t fp : String) (sz : Int) (col : Color) (a : PyAvatar)
    (hcol : col.pyTruthy = true) (ht : t ≠ "")
    (hsz : ¬(sz < ValidPixelRange.MIN ∨ sz > ValidPixelRange.MAX))
    (hfp : setFontpath fs fp = .ok fp) :
    Except.map PyAvatar.color (mkPyAvatar m fs rand t sz fp (some col)) =
      .ok col ∧
    (change_color m rand a (some col)).color = col := by
  have hd : t.data ≠ [] := fun hnil => ht (String.ext (by rw [hnil]))
  obtain ⟨c0, cs, hdata⟩ : ∃ c0 cs, t.data = c0 :: cs := by
    cases hdt : t.data with
    | nil => exact absurd hdt hd
    | cons a l => exact ⟨a, l, rfl⟩
  constructor
  · unfold mkPyAvatar setText setSize
    simp only [hdata]
    rw [if_neg hsz, hfp]
    simp [resolveColor, hcol, Except.map]
  · simp [change_color, resolveColor, hcol]

/-- Witness for claim C6 with the color (9, 9, 9). -/
theorem explicit_color_stored_witness :
    Except.map PyAvatar.color
      (mkPyAvatar metricsC fsC (1, 2, 3) "x" 120 "font/Lora.ttf"
        (some (Color.rgb 9 9 9))) = .ok (Color.rgb 9 9 9) ∧
    (change_color metricsC (1, 2, 3) avatarC (some (Color.rgb 9 9 9))).color =
      Color.rgb 9 9 9 :=
  explicit_color_stored metricsC fsC (1, 2, 3) "x" "font/Lora.ttf" 120
    (Color.rgb 9 9 9) avatarC (by decide) (by decide) (by decide) (by decide)

/-- Claim C4: `stream` raises the image-extension error iff the lowercased
format is not in the supported set; otherwise (for an encoder that never
produces empty output and emits the PNG signature for png) it returns the
non-empty encoded canvas, beginning with the PNG magic bytes for "png". -/
theorem stream_format_validation (enc : Encoder) (a : PyAvatar) (ft : String)
    (hne : ∀ f, enc a.img f ≠ [])
    (hpng : (enc a.img "png").take 8 = pngMagic) :
    ((∃ v i, stream enc a ft =
        .error (PyErr.avatarExtensionNotSupportedError v i)) ↔
      ValidImgFormats.list.contains (pyLower ft) = false) ∧
    (ValidImgFormats.list.contains (pyLower ft) = true →
      stream enc a ft = .ok (enc a.img ft) ∧ enc a.img ft ≠ []) ∧
    (∃ bs, stream enc a "png" = .ok bs ∧ bs ≠ [] ∧ bs.take 8 = pngMagic) := by
  refine ⟨?_, ?_, ?_⟩
  · constructor
    · intro ⟨v, i, hvi⟩
      by_contra hc
      simp only [Bool.not_eq_false] at hc
      unfold stream at hvi
      rw [if_pos hc] at hvi
      exact absurd hvi (by simp)
    · intro hc
      refine ⟨ft, "Supported formats: " ++ ValidImgFormats.csv, ?_⟩
      unfold stream
      rw [if_neg (by simpa using hc)]
  · intro hc
    constructor
    · unfold stream
      rw [if_pos hc]
    · exact hne ft
  · refine ⟨enc a.img "png", ?_, hne "png", hpng⟩
    unfold stream
    rw [if_pos (by decide)]

/-- Witness for claim C4 at the format "PNG" (case-insensitive match). -/
theorem stream_format_validation_witness :
    stream encC avatarC "PNG" = .ok (encC avatarC.img "PNG") ∧
    encC avatarC.img "PNG" ≠ [] :=
  (stream_format_validation encC avatarC "PNG"
    (fun f => by show pngMagic ≠ []; decide) (by decide)).2.1 (by decide)

/-- Claim C5: `base64_image` fails exactly when `stream` fails, and on
success returns `"data:image/" ++ format ++ ";base64,"` followed by the
base64 encoding of `stream(format)`, whose decoding gives back exactly the
streamed bytes. -/
theorem base64_image_spec (enc : Encoder) (a : PyAvatar) (ft : String)
    (hbytes : ∀ b ∈ enc a.img ft, b < 256) :
    (∀ e, base64_image enc a ft = .error e ↔ stream enc a ft = .error e) ∧
    (∀ bs, stream enc a ft = .ok bs →
      base64_image enc a ft =
        .ok ("data:image/" ++ ft ++ ";base64," ++ String.mk (encB64 bs)) ∧
      decB64 (encB64 bs) = some bs) := by
  have hok : ∀ bs, stream enc a ft = .ok bs → bs = enc a.img ft := by
    intro bs h
    unfold stream at h
    split at h
    · exact (Except.ok.inj h).symm
    · exact absurd h (by simp)
  constructor
  · intro e
    unfold base64_image
    cases hstream : stream enc a ft with
    | error e0 => simp
    | ok bs0 => simp
  · intro bs hbs
    have hbsval := hok bs hbs
    subst hbsval
    constructor
    · unfold base64_image
      rw [hbs]
    · exact decB64_encB64 _ hbytes

/-- Witness for claim C5 at the format "jpeg". -/
theorem base64_image_spec_witness :
    base64_image encC avatarC "jpeg" =
      .ok ("data:image/jpeg;base64," ++ String.mk (encB64 pngMagic)) ∧
    decB64 (encB64 pngMagic) = some pngMagic :=
  (base64_image_spec encC avatarC "jpeg"
    (by show ∀ b ∈ pngMagic, b < 256; decide)).2 pngMagic (by decide)

/-- Claim C3 counterexample: two failures of the claim.  First,
"/tmp/a.PNG" has the (case-insensitively) supported extension png and an
existing parent directory, yet `save` raises the image-extension error and
leaves the filesystem unchanged: `save` matches the extension
case-sensitively.  Second, the bare filename "a.png" has a supported
extension and an existing parent (the current directory), yet `save`
raises `FileNotFoundError` from `os.makedirs("")` instead of writing,
because `os.path.exists("")` is false. -/
theorem save_contract_counterexample :
    (pyLower "PNG" = "png" ∧
      osPathExists fsC (dirname "/tmp/a.PNG") = true ∧
      save encC avatarC "/tmp/a.PNG" fsC =
        (some (PyErr.avatarExtensionNotSupportedError "a.PNG"
          ("Supported formats: " ++ ValidImgFormats.csv)), fsC)) ∧
    (extensionOf "a.png" = .ok "png" ∧
      dirname "a.png" = "" ∧
      save encC avatarC "a.png" fsC = (some PyErr.fileNotFoundError, fsC)) := by
  refine ⟨⟨by decide, by decide, by decide⟩, by decide, by decide, by decide⟩

/-- Claim C3 as amended: `save` matches the extracted extension
case-sensitively (it must be exactly png, jpeg or ico); on an unsupported
extension it raises the image-extension error reporting the supported set
and changes nothing; on a supported extension, when the filepath names a
parent directory (non-empty dirname) `save` creates it when missing (no
error when it already exists) and writes the encoded canvas at the exact
path, but a bare filename (empty dirname) raises `FileNotFoundError` from
`os.makedirs("")` and writes nothing. -/
theorem save_extension_validation (enc : Encoder) (a : PyAvatar) (fs : Fs)
    (p : String) :
    (∀ ext, extensionOf p = .ok ext →
      ValidImgFormats.list.contains ext = false →
      save enc a p fs =
        (some (PyErr.avatarExtensionNotSupportedError (basename p)
          ("Supported formats: " ++ ValidImgFormats.csv)), fs)) ∧
    (∀ ext, extensionOf p = .ok ext →
      ValidImgFormats.list.contains ext = true →
      (dirname p ≠ "" →
        (osPathExists fs (dirname p) = false →
          save enc a p fs =
            (none, { dirs := dirname p :: fs.dirs,
                     files := (p, enc a.img ext) :: fs.files })) ∧
        (osPathExists fs (dirname p) = true →
          save enc a p fs =
            (none, { fs with files := (p, enc a.img ext) :: fs.files }))) ∧
      (dirname p = "" →
        save enc a p fs = (some PyErr.fileNotFoundError, fs))) := by
  constructor
  · intro ext hext hns
    unfold save
    rw [hext]
    dsimp only
    rw [if_neg (by simpa using hns)]
  · intro ext hext hs
    constructor
    · intro hdir
      constructor
      · intro hex
        unfold save
        rw [hext]
        dsimp only
        rw [if_pos hs]
        rw [if_neg (by simp [hex])]
        unfold osMakedirs
        rw [if_neg hdir]
      · intro hex
        unfold save
        rw [hext]
        dsimp only
        rw [if_pos hs]
        rw [if_pos hex]
    · intro hd0
      unfold save
      rw [hext]
      dsimp only
      rw [if_pos hs, hd0]
      rw [if_neg (by simp [osPathExists])]
      unfold osMakedirs
      rw [if_pos rfl]

/-- Witness for the amended claim C3: saving into a missing directory
creates it and writes at the exact path; an unsupported bare filename gets
the extension error; a supported bare filename gets `FileNotFoundError`. -/
theorem save_extension_validation_witness :
    save encC avatarC "/tmp/new/test.png" fsC =
      (none, { dirs := dirname "/tmp/new/test.png" :: fsC.dirs,
               files := ("/tmp/new/test.png", encC avatarC.img "png") :: fsC.files }) ∧
    save encC avatarC "a.nope" fsC =
      (some (PyErr.avatarExtensionNotSupportedError "a.nope"
        ("Supported formats: " ++ ValidImgFormats.csv)), fsC) ∧
    save encC avatarC "a.png" fsC = (some PyErr.fileNotFoundError, fsC) :=
  ⟨((((save_extension_validation encC avatarC fsC "/tmp/new/test.png").2
      "png" (by decide) (by decide)).1 (by decide)).1 (by decide)),
    (save_extension_validation encC avatarC fsC "a.nope").1 "nope"
      (by decide) (by decide),
    ((save_extension_validation encC avatarC fsC "a.png").2 "png"
      (by decide) (by decide)).2 (by decide)⟩
/-- Claim C10: when the final path component has no dot, `save` raises the
builtin `IndexError` from `os.path.splitext(filepath)[1].split(".")[1]`
before the extension validation, and the filesystem is unchanged. -/
theorem save_no_dot_index_error (enc : Encoder) (a : PyAvatar) (fs : Fs)
    (p : String) (h : '.' ∉ basenameChars p) :
    save enc a p fs = (some PyErr.indexError, fs) := by
  have hbase : splitOnChar '.' (basenameChars p) = [basenameChars p] :=
    splitOnChar_eq_single h
  have hext : splitextExt p.data = [] := by
    unfold splitextExt
    dsimp only
    rw [show (splitOnChar '/' p.data).getLastD [] = basenameChars p from rfl, hbase]
    simp
  have hof : extensionOf p = .error PyErr.indexError := by
    unfold extensionOf
    rw [hext]
    rfl
  unfold save
  rw [hof]

/-- Witness for claim C10 at the path "avatar". -/
theorem save_no_dot_witness :
    ('.' ∉ basenameChars "avatar") ∧
    save encC avatarC "avatar" fsC = (some PyErr.indexError, fsC) :=
  ⟨by decide, save_no_dot_index_error encC avatarC fsC "avatar" (by decide)⟩
